import Mathlib

/-!
A shallow embedding of the scroll-export driver of `main.go` (repository
qichengzx/mes) and proofs about its pagination loop, flush policy, cursor
bookkeeping and error handling.

The embedded core is `parseResult` (main.go lines 300-360) together with
`scroll` (259-275), `search` (277-298), `flushToFile` (362-378) and
`clearScroll` (380-383).  The network client is an external collaborator: a
run is parameterized by `pages : Nat → Page`, the sequence of pages the
cluster returns (fetch 0 is the initial search response, fetch k is the k-th
scroll response), and by `werrs : Nat → Bool`, the error value the sink's
`Write` call returns for the k-th flush (the Go code discards it, line 377).

Record bodies (`hit.Source`, an opaque decoded JSON value) are modelled by
`Nat` identifiers; JSON serialization is abstracted as a
`marshal : Nat → Option String` parameter (`none` models a `json.Marshal`
failure).

`parseResult` is genuinely recursive in the source: line 352 calls
`t.scroll(r.ScrollID)`, which calls `t.parseResult` on the next response, and
only afterwards does the enclosing `for totalLines != t.numResult` loop
re-check its condition.  The embedding `pr` mirrors that call structure
exactly; since the source loop need not terminate, `pr` carries a fuel
argument and returns `none` when the fuel runs out.
-/

set_option maxHeartbeats 1000000
set_option maxRecDepth 100000
set_option linter.unusedVariables false

namespace Mes

/-- One fetch result, modelling the decoded `result` struct (main.go lines
243-257): `_scroll_id`, the cluster-reported total `hits.total`, and the
page's records `hits.hits`.  Each record's opaque `_source` body is modelled
by a `Nat` identifier. -/
structure Page where
  scrollID : String
  total : Nat
  hits : List Nat
deriving DecidableEq, Repr

/-- The mutable state of one run: the package globals `totalLines` and
`hitResult` (main.go lines 22-27) and the `App` fields `queryResult`,
`numResult`, `sIDs`, `scrollIDs` (lines 55-69), plus two observation fields:
`flushes` records the argument of every `flushToFile` call, in call order,
and `fetchCount` records how many HTTP fetches (the initial search plus all
scrolls) have been issued so far. -/
structure St where
  totalLines : Nat
  queryResult : Nat
  numResult : Nat
  hitResult : List Nat
  sIDs : List String
  scrollIDs : List String
  flushes : List (List Nat)
  fetchCount : Nat
deriving DecidableEq, Repr

/-- The fixed flush threshold `FLUSHBUFFER` (main.go line 19). -/
def FLUSHBUFFER : Nat := 1000

/-- State after `run()` has issued the initial search (main.go lines 140-157):
all counters zero, empty buffer and token sets, one fetch performed. -/
def stInit : St :=
  { totalLines := 0, queryResult := 0, numResult := 0, hitResult := [],
    sIDs := [], scrollIDs := [], flushes := [], fetchCount := 1 }

/-- `flushToFile(hitResult)` as the driver sees it (main.go lines 340, 345,
356 and 363-378): the current buffer is handed to the sink and the buffer is
cleared by the caller right after.  The sink's `Write` call returns an error
value — here `werrs s.flushes.length`, the oracle's answer for this call —
and line 377 discards both return values of `Write`, so the state update does
not depend on it. -/
def flushCall (werrs : Nat → Bool) (s : St) : St :=
  { s with flushes := s.flushes ++ [s.hitResult], hitResult := [] }

/-- Recording a scroll id into the `sIDs` set (main.go lines 331-333). -/
def insertSID (sid : String) (s : St) : St :=
  if s.sIDs.contains sid then s else { s with sIDs := s.sIDs ++ [sid] }

/-- Lines 321-327 of `parseResult`: `queryResult` is assigned from the current
page's reported total, and `numResult` is `maxResult` when a positive limit is
configured, else `queryResult`.  This runs on every `parseResult` call, i.e.
on every page. -/
def setTotals (mres : Nat) (pg : Page) (s : St) : St :=
  { s with queryResult := pg.total,
           numResult := if 0 < mres then mres else pg.total }

/-- One record of the inner loop, before the limit check (main.go lines
336-342): increment `totalLines`, append the record to `hitResult`, and flush
when the buffer length reaches `FLUSHBUFFER`. -/
def stepHit (werrs : Nat → Bool) (v : Nat) (s : St) : St :=
  if (s.hitResult ++ [v]).length = FLUSHBUFFER then
    flushCall werrs { s with totalLines := s.totalLines + 1,
                             hitResult := s.hitResult ++ [v] }
  else
    { s with totalLines := s.totalLines + 1, hitResult := s.hitResult ++ [v] }

/-- The inner `for _, v := range r.Hits.Hits` loop (main.go lines 335-350):
per record, `stepHit`, and then, when a positive `maxResult` is configured and
`totalLines` has reached it, flush (possibly an empty buffer, since the
threshold flush of line 340 may just have cleared it) and break out of the
loop. -/
def procHits (mres : Nat) (werrs : Nat → Bool) : List Nat → St → St
  | [], s => s
  | v :: rest, s =>
    if 0 < mres ∧ (stepHit werrs v s).totalLines = mres then
      flushCall werrs (stepHit werrs v s)
    else procHits mres werrs rest (stepHit werrs v s)

/-- The residual flush after the `for totalLines != t.numResult` loop exits
(main.go lines 355-358). -/
def residualFlush (werrs : Nat → Bool) (s : St) : St :=
  if s.hitResult ≠ [] then flushCall werrs s else s

/-- Issuing one more fetch: the `fetchCount` observation is incremented when
`scroll` performs the next request (main.go lines 260-267, called at 352). -/
def bumpFetch (s : St) : St :=
  { s with fetchCount := s.fetchCount + 1 }

/-- `parseResult` (mode `false`) and its `for totalLines != t.numResult` loop
(mode `true`), main.go lines 300-360, with the `scroll` call of line 352
inlined: fetching the next page and recursively parsing it, after which the
loop re-checks its condition on the *same* page.  The first fuel argument
bounds the recursion depth; `none` means the fuel ran out before the source
program would have returned. -/
def pr (mres : Nat) (pages : Nat → Page) (werrs : Nat → Bool) :
    Nat → Bool → Page → St → Option St
  | 0, _, _, _ => none
  | fuel + 1, false, pg, s =>
    if 0 < (setTotals mres pg s).numResult ∧ pg.hits ≠ [] then
      (pr mres pages werrs fuel true pg (setTotals mres pg s)).map
        (residualFlush werrs)
    else
      some (setTotals mres pg s)
  | fuel + 1, true, pg, s =>
    if s.totalLines = s.numResult then
      some s
    else
      (pr mres pages werrs fuel false
          (pages (procHits mres werrs pg.hits (insertSID pg.scrollID s)).fetchCount)
          (bumpFetch (procHits mres werrs pg.hits (insertSID pg.scrollID s)))).bind
        (pr mres pages werrs fuel true pg)

/-- A whole run: `search` issues the initial fetch (page 0) and hands the
response to `parseResult` (main.go lines 278-298, 153-162). -/
def runApp (mres : Nat) (pages : Nat → Page) (werrs : Nat → Bool)
    (fuel : Nat) : Option St :=
  pr mres pages werrs fuel false (pages 0) stInit

/-- A sink whose `Write` never reports an error. -/
def noErr : Nat → Bool := fun _ => false

/-- The sequence of records handed to the sink so far, followed by the records
still pending in the buffer: every record the driver has processed, in
processing order. -/
def procS (s : St) : List Nat := s.flushes.flatten ++ s.hitResult

/-- The scroll-id argument `clearScroll` would pass: `strings.Join(t.scrollIDs, ",")`
(main.go line 382).  Note the source joins `scrollIDs` — a slice that is never
appended to anywhere — not the `sIDs` set that `parseResult` populates, and the
built request option is discarded without ever issuing the ClearScroll call. -/
def clearScrollArg (s : St) : String :=
  String.intercalate "," s.scrollIDs

/-- The lines `flushToFile` writes for a buffer (main.go lines 370-375): per
record, `json.Marshal(v.Source)` with the error ignored — on failure `j` is
empty — then the bytes of `j` and one newline.  An element of the returned
list is the content of one newline-terminated line. -/
def flushLines (marshal : Nat → Option String) (hits : List Nat) : List String :=
  hits.map fun v => (marshal v).getD ""

/-- The byte stream `flushToFile` writes for a buffer: each line followed by
a newline (main.go lines 373-374, 377). -/
def flushBytes (marshal : Nat → Option String) (hits : List Nat) : String :=
  String.join ((flushLines marshal hits).map fun l => l ++ "\n")

/-- The full byte stream a run writes to the sink: the bytes of every
`flushToFile` call in order. -/
def sinkLines (marshal : Nat → Option String) (s : St) : List String :=
  (s.flushes.map (flushLines marshal)).flatten

/-- What happens right after `esClient.Scroll` / `esClient.Search` returns
`(res, err)` in `scroll` (main.go lines 261-274) and `search` (lines 279-297):
both run `defer res.Body.Close()` *before* checking `err != nil`.  The defer
statement evaluates its receiver `res.Body` immediately; when the client
returned an error the response is `nil`, so that evaluation dereferences a nil
pointer and the process panics before the `log.Fatalf` branch is reached. -/
inductive FetchOutcome where
  | nilPanic
  | fatalLogged
  | parsed (pg : Page)
deriving DecidableEq, Repr

/-- The response-receipt semantics shared by `scroll` and `search`: `res` is
the returned response (`none` models a nil response, which is what the client
returns together with a non-nil error), `err` whether the error value is
non-nil.  `defer res.Body.Close()` comes first and panics on a nil response;
only then would `err` be checked and `log.Fatalf` run. -/
def respHandle (res : Option Page) (err : Bool) : FetchOutcome :=
  match res with
  | none => FetchOutcome.nilPanic
  | some pg => if err then FetchOutcome.fatalLogged else FetchOutcome.parsed pg


/-! ### Concrete runs used to evaluate the driver at specific inputs -/

/-- A sink whose `Write` reports an error on every call. -/
def allErr : Nat → Bool := fun _ => true

/-- A serializer for which record `1` fails to marshal and every other record
serializes to its decimal representation. -/
def mFail : Nat → Option String := fun v => if v = 1 then none else some (toString v)

/-- Cluster whose first page reports total 3 but carries only two records,
and whose every later page is empty while still reporting total 3: a
zero-record continuation page arriving with the target unmet. -/
def pagesHang : Nat → Page := fun k =>
  if k = 0 then ⟨"a", 3, [7, 8]⟩ else ⟨"a", 3, []⟩

/-- Cluster for a `maxResult = 1` run: the first page reports total 5 and has
two records; the first continuation page reports total 9 and has one record. -/
def pagesLimitCx : Nat → Page := fun k =>
  if k = 0 then ⟨"s0", 5, [10, 20]⟩
  else if k = 1 then ⟨"s1", 9, [30]⟩
  else ⟨"sx", 9, []⟩

/-- Cluster with a single record overall: the first page reports total 2 but
carries one record, and every continuation page is empty with total 2. -/
def pagesDup : Nat → Page := fun k =>
  if k = 0 then ⟨"a", 2, [7]⟩ else ⟨"a", 2, []⟩

/-- Cluster whose first page reports total 5 with three records and whose
continuation pages are empty but report total 3. -/
def pagesShort : Nat → Page := fun k =>
  if k = 0 then ⟨"a", 5, [1, 2, 3]⟩ else ⟨"a", 3, []⟩

/-- A well-behaved three-page cluster: five records across pages of sizes
2, 2, 1, every page reporting total 5, empty beyond. -/
def pagesGood : Nat → Page := fun k =>
  if k = 0 then ⟨"a", 5, [1, 2]⟩
  else if k = 1 then ⟨"b", 5, [3, 4]⟩
  else if k = 2 then ⟨"c", 5, [5]⟩
  else ⟨"d", 5, []⟩

/-- A well-behaved two-page cluster with two records per page. -/
def pagesLim : Nat → Page := fun k =>
  if k = 0 then ⟨"a", 5, [10, 20]⟩
  else if k = 1 then ⟨"b", 5, [30, 40]⟩
  else ⟨"c", 5, []⟩

/-- Single page of exactly 1000 records (total 1000), empty beyond. -/
def pages1000 : Nat → Page := fun k =>
  if k = 0 then ⟨"a", 1000, List.replicate 1000 0⟩ else ⟨"a", 1000, []⟩

/-- A 1000-record page followed by a single-record page (total 1001). -/
def pages1001 : Nat → Page := fun k =>
  if k = 0 then ⟨"a", 1001, List.replicate 1000 0⟩
  else if k = 1 then ⟨"b", 1001, [7]⟩
  else ⟨"c", 1001, []⟩

/-- Single page of exactly 999 records (total 999), empty beyond. -/
def pages999 : Nat → Page := fun k =>
  if k = 0 then ⟨"a", 999, List.replicate 999 0⟩ else ⟨"a", 999, []⟩

/-- Final state of the `pagesDup` run (limit 0). -/
def stDup : St := (runApp 0 pagesDup noErr 10).getD stInit

/-- Final state of the `pagesLimitCx` run with `maxResult = 1`. -/
def stLimitCx : St := (runApp 1 pagesLimitCx noErr 10).getD stInit

/-! ### Field lemmas for the small-step state operations -/

@[simp] theorem flushCall_totalLines (w : Nat → Bool) (s : St) :
    (flushCall w s).totalLines = s.totalLines := rfl

@[simp] theorem flushCall_queryResult (w : Nat → Bool) (s : St) :
    (flushCall w s).queryResult = s.queryResult := rfl

@[simp] theorem flushCall_numResult (w : Nat → Bool) (s : St) :
    (flushCall w s).numResult = s.numResult := rfl

@[simp] theorem flushCall_fetchCount (w : Nat → Bool) (s : St) :
    (flushCall w s).fetchCount = s.fetchCount := rfl

@[simp] theorem flushCall_scrollIDs (w : Nat → Bool) (s : St) :
    (flushCall w s).scrollIDs = s.scrollIDs := rfl

@[simp] theorem flushCall_sIDs (w : Nat → Bool) (s : St) :
    (flushCall w s).sIDs = s.sIDs := rfl

@[simp] theorem flushCall_hitResult (w : Nat → Bool) (s : St) :
    (flushCall w s).hitResult = [] := rfl

@[simp] theorem flushCall_flushes (w : Nat → Bool) (s : St) :
    (flushCall w s).flushes = s.flushes ++ [s.hitResult] := rfl

@[simp] theorem procS_flushCall (w : Nat → Bool) (s : St) :
    procS (flushCall w s) = procS s := by
  simp [procS, flushCall]

@[simp] theorem insertSID_totalLines (sid : String) (s : St) :
    (insertSID sid s).totalLines = s.totalLines := by
  unfold insertSID; split <;> rfl

@[simp] theorem insertSID_queryResult (sid : String) (s : St) :
    (insertSID sid s).queryResult = s.queryResult := by
  unfold insertSID; split <;> rfl

@[simp] theorem insertSID_numResult (sid : String) (s : St) :
    (insertSID sid s).numResult = s.numResult := by
  unfold insertSID; split <;> rfl

@[simp] theorem insertSID_fetchCount (sid : String) (s : St) :
    (insertSID sid s).fetchCount = s.fetchCount := by
  unfold insertSID; split <;> rfl

@[simp] theorem insertSID_scrollIDs (sid : String) (s : St) :
    (insertSID sid s).scrollIDs = s.scrollIDs := by
  unfold insertSID; split <;> rfl

@[simp] theorem insertSID_hitResult (sid : String) (s : St) :
    (insertSID sid s).hitResult = s.hitResult := by
  unfold insertSID; split <;> rfl

@[simp] theorem insertSID_flushes (sid : String) (s : St) :
    (insertSID sid s).flushes = s.flushes := by
  unfold insertSID; split <;> rfl

@[simp] theorem procS_insertSID (sid : String) (s : St) :
    procS (insertSID sid s) = procS s := by
  simp [procS]

@[simp] theorem setTotals_totalLines (m : Nat) (pg : Page) (s : St) :
    (setTotals m pg s).totalLines = s.totalLines := rfl

@[simp] theorem setTotals_queryResult (m : Nat) (pg : Page) (s : St) :
    (setTotals m pg s).queryResult = pg.total := rfl

@[simp] theorem setTotals_numResult (m : Nat) (pg : Page) (s : St) :
    (setTotals m pg s).numResult = if 0 < m then m else pg.total := rfl

@[simp] theorem setTotals_fetchCount (m : Nat) (pg : Page) (s : St) :
    (setTotals m pg s).fetchCount = s.fetchCount := rfl

@[simp] theorem setTotals_scrollIDs (m : Nat) (pg : Page) (s : St) :
    (setTotals m pg s).scrollIDs = s.scrollIDs := rfl

@[simp] theorem setTotals_sIDs (m : Nat) (pg : Page) (s : St) :
    (setTotals m pg s).sIDs = s.sIDs := rfl

@[simp] theorem setTotals_hitResult (m : Nat) (pg : Page) (s : St) :
    (setTotals m pg s).hitResult = s.hitResult := rfl

@[simp] theorem setTotals_flushes (m : Nat) (pg : Page) (s : St) :
    (setTotals m pg s).flushes = s.flushes := rfl

@[simp] theorem procS_setTotals (m : Nat) (pg : Page) (s : St) :
    procS (setTotals m pg s) = procS s := rfl

@[simp] theorem bumpFetch_totalLines (s : St) :
    (bumpFetch s).totalLines = s.totalLines := rfl

@[simp] theorem bumpFetch_queryResult (s : St) :
    (bumpFetch s).queryResult = s.queryResult := rfl

@[simp] theorem bumpFetch_numResult (s : St) :
    (bumpFetch s).numResult = s.numResult := rfl

@[simp] theorem bumpFetch_fetchCount (s : St) :
    (bumpFetch s).fetchCount = s.fetchCount + 1 := rfl

@[simp] theorem bumpFetch_scrollIDs (s : St) :
    (bumpFetch s).scrollIDs = s.scrollIDs := rfl

@[simp] theorem bumpFetch_hitResult (s : St) :
    (bumpFetch s).hitResult = s.hitResult := rfl

@[simp] theorem bumpFetch_flushes (s : St) :
    (bumpFetch s).flushes = s.flushes := rfl

@[simp] theorem procS_bumpFetch (s : St) :
    procS (bumpFetch s) = procS s := rfl

@[simp] theorem stepHit_totalLines (w : Nat → Bool) (v : Nat) (s : St) :
    (stepHit w v s).totalLines = s.totalLines + 1 := by
  unfold stepHit; split <;> rfl

@[simp] theorem stepHit_queryResult (w : Nat → Bool) (v : Nat) (s : St) :
    (stepHit w v s).queryResult = s.queryResult := by
  unfold stepHit; split <;> rfl

@[simp] theorem stepHit_numResult (w : Nat → Bool) (v : Nat) (s : St) :
    (stepHit w v s).numResult = s.numResult := by
  unfold stepHit; split <;> rfl

@[simp] theorem stepHit_fetchCount (w : Nat → Bool) (v : Nat) (s : St) :
    (stepHit w v s).fetchCount = s.fetchCount := by
  unfold stepHit; split <;> rfl

@[simp] theorem stepHit_scrollIDs (w : Nat → Bool) (v : Nat) (s : St) :
    (stepHit w v s).scrollIDs = s.scrollIDs := by
  unfold stepHit; split <;> rfl

@[simp] theorem stepHit_sIDs (w : Nat → Bool) (v : Nat) (s : St) :
    (stepHit w v s).sIDs = s.sIDs := by
  unfold stepHit; split <;> rfl

@[simp] theorem procS_stepHit (w : Nat → Bool) (v : Nat) (s : St) :
    procS (stepHit w v s) = procS s ++ [v] := by
  unfold stepHit; split <;> simp [procS]

theorem stepHit_hitResult_length (w : Nat → Bool) (v : Nat) (s : St)
    (h : s.hitResult.length < FLUSHBUFFER) :
    (stepHit w v s).hitResult.length
      = (s.hitResult.length + 1) % FLUSHBUFFER := by
  have hb : FLUSHBUFFER = 1000 := rfl
  rw [hb] at h ⊢
  unfold stepHit; rw [hb]; split
  · rename_i heq
    simp only [flushCall_hitResult, List.length_nil]
    simp only [List.length_append, List.length_cons, List.length_nil] at heq
    omega
  · rename_i hne
    simp only [List.length_append, List.length_cons, List.length_nil] at hne ⊢
    omega

theorem stepHit_flushes_length (w : Nat → Bool) (v : Nat) (s : St)
    (h : s.hitResult.length < FLUSHBUFFER) :
    (stepHit w v s).flushes.length
      = s.flushes.length + (s.hitResult.length + 1) / FLUSHBUFFER := by
  have hb : FLUSHBUFFER = 1000 := rfl
  rw [hb] at h ⊢
  unfold stepHit; rw [hb]; split
  · rename_i heq
    simp only [List.length_append, List.length_cons, List.length_nil] at heq
    show (s.flushes ++ [s.hitResult ++ [v]]).length
        = s.flushes.length + (s.hitResult.length + 1) / 1000
    simp only [List.length_append, List.length_cons, List.length_nil]
    omega
  · rename_i hne
    simp only [List.length_append, List.length_cons, List.length_nil] at hne
    show s.flushes.length = s.flushes.length + (s.hitResult.length + 1) / 1000
    omega

@[simp] theorem residualFlush_totalLines (w : Nat → Bool) (s : St) :
    (residualFlush w s).totalLines = s.totalLines := by
  unfold residualFlush; split <;> rfl

@[simp] theorem residualFlush_queryResult (w : Nat → Bool) (s : St) :
    (residualFlush w s).queryResult = s.queryResult := by
  unfold residualFlush; split <;> rfl

@[simp] theorem residualFlush_numResult (w : Nat → Bool) (s : St) :
    (residualFlush w s).numResult = s.numResult := by
  unfold residualFlush; split <;> rfl

@[simp] theorem residualFlush_fetchCount (w : Nat → Bool) (s : St) :
    (residualFlush w s).fetchCount = s.fetchCount := by
  unfold residualFlush; split <;> rfl

@[simp] theorem residualFlush_scrollIDs (w : Nat → Bool) (s : St) :
    (residualFlush w s).scrollIDs = s.scrollIDs := by
  unfold residualFlush; split <;> rfl

@[simp] theorem residualFlush_hitResult (w : Nat → Bool) (s : St) :
    (residualFlush w s).hitResult = [] := by
  unfold residualFlush; split
  · rfl
  · rename_i h
    simpa using h

@[simp] theorem procS_residualFlush (w : Nat → Bool) (s : St) :
    procS (residualFlush w s) = procS s := by
  unfold residualFlush; split <;> simp

theorem residualFlush_flushes_length (w : Nat → Bool) (s : St) :
    (residualFlush w s).flushes.length
      = s.flushes.length + (if s.hitResult = [] then 0 else 1) := by
  unfold residualFlush; split <;> rename_i h <;> simp [h]


/-! ### The inner record loop -/

theorem procHits_queryResult (m : Nat) (w : Nat → Bool) :
    ∀ (hs : List Nat) (s : St), (procHits m w hs s).queryResult = s.queryResult := by
  intro hs
  induction hs with
  | nil => intro s; rfl
  | cons v rest ih =>
    intro s
    unfold procHits
    split
    · simp
    · rw [ih]; simp

theorem procHits_numResult (m : Nat) (w : Nat → Bool) :
    ∀ (hs : List Nat) (s : St), (procHits m w hs s).numResult = s.numResult := by
  intro hs
  induction hs with
  | nil => intro s; rfl
  | cons v rest ih =>
    intro s
    unfold procHits
    split
    · simp
    · rw [ih]; simp

theorem procHits_fetchCount (m : Nat) (w : Nat → Bool) :
    ∀ (hs : List Nat) (s : St), (procHits m w hs s).fetchCount = s.fetchCount := by
  intro hs
  induction hs with
  | nil => intro s; rfl
  | cons v rest ih =>
    intro s
    unfold procHits
    split
    · simp
    · rw [ih]; simp

theorem procHits_scrollIDs (m : Nat) (w : Nat → Bool) :
    ∀ (hs : List Nat) (s : St), (procHits m w hs s).scrollIDs = s.scrollIDs := by
  intro hs
  induction hs with
  | nil => intro s; rfl
  | cons v rest ih =>
    intro s
    unfold procHits
    split
    · simp
    · rw [ih]; simp

theorem procHits_sIDs (m : Nat) (w : Nat → Bool) :
    ∀ (hs : List Nat) (s : St), (procHits m w hs s).sIDs = s.sIDs := by
  intro hs
  induction hs with
  | nil => intro s; rfl
  | cons v rest ih =>
    intro s
    unfold procHits
    split
    · simp
    · rw [ih]; simp

/-- When the configured limit is zero or still out of reach after the whole
page, the inner loop consumes every record: `totalLines` advances by the page
size, the processed sequence extends by the page's hits in order, and buffer
length and flush-call count follow the `FLUSHBUFFER` boundary arithmetic. -/
theorem procHits_noBreak (m : Nat) (w : Nat → Bool) :
    ∀ (hs : List Nat) (s : St),
    s.hitResult.length < FLUSHBUFFER →
    (m = 0 ∨ s.totalLines + hs.length < m) →
    (procHits m w hs s).totalLines = s.totalLines + hs.length ∧
    procS (procHits m w hs s) = procS s ++ hs ∧
    (procHits m w hs s).hitResult.length
      = (s.hitResult.length + hs.length) % FLUSHBUFFER ∧
    (procHits m w hs s).flushes.length
      = s.flushes.length + (s.hitResult.length + hs.length) / FLUSHBUFFER := by
  intro hs
  induction hs with
  | nil =>
    intro s hb hm
    have hbL : FLUSHBUFFER = 1000 := rfl
    rw [hbL] at hb
    refine ⟨by simp [procHits], by simp [procHits], ?_, ?_⟩
    · show s.hitResult.length = (s.hitResult.length + 0) % FLUSHBUFFER
      rw [hbL]; omega
    · show s.flushes.length = s.flushes.length + (s.hitResult.length + 0) / FLUSHBUFFER
      rw [hbL]; omega
  | cons v rest ih =>
    intro s hb hm
    have hlim : ¬(0 < m ∧ (stepHit w v s).totalLines = m) := by
      rintro ⟨hm0, heq⟩
      rw [stepHit_totalLines] at heq
      rcases hm with h0 | hlt
      · omega
      · simp only [List.length_cons] at hlt; omega
    unfold procHits
    rw [if_neg hlim]
    have hb2 : (stepHit w v s).hitResult.length < FLUSHBUFFER := by
      rw [stepHit_hitResult_length w v s hb]
      have hbL : FLUSHBUFFER = 1000 := rfl
      rw [hbL]; exact Nat.mod_lt _ (by omega)
    have hm2 : m = 0 ∨ (stepHit w v s).totalLines + rest.length < m := by
      rcases hm with h0 | hlt
      · exact Or.inl h0
      · right
        rw [stepHit_totalLines]
        simp only [List.length_cons] at hlt
        omega
    obtain ⟨ih1, ih2, ih3, ih4⟩ := ih (stepHit w v s) hb2 hm2
    have hbL : FLUSHBUFFER = 1000 := rfl
    refine ⟨?_, ?_, ?_, ?_⟩
    · rw [ih1, stepHit_totalLines]; simp only [List.length_cons]; omega
    · rw [ih2, procS_stepHit]; simp
    · rw [ih3, stepHit_hitResult_length w v s hb]
      rw [hbL] at hb ⊢
      simp only [List.length_cons]
      omega
    · rw [ih4, stepHit_flushes_length w v s hb, stepHit_hitResult_length w v s hb]
      rw [hbL] at hb ⊢
      simp only [List.length_cons]
      omega

/-- When a positive limit lies inside the page, the inner loop stops exactly
at the limit: `totalLines` lands on `m`, the buffer is flushed and cleared by
the limit-flush of line 345, only the first `m - totalLines` records of the
page are processed, and one extra flush call (beyond any threshold flushes) is
made. -/
theorem procHits_break (m : Nat) (w : Nat → Bool) :
    ∀ (hs : List Nat) (s : St),
    s.hitResult.length < FLUSHBUFFER →
    0 < m → s.totalLines < m → m ≤ s.totalLines + hs.length →
    (procHits m w hs s).totalLines = m ∧
    (procHits m w hs s).hitResult = [] ∧
    procS (procHits m w hs s) = procS s ++ hs.take (m - s.totalLines) ∧
    (procHits m w hs s).flushes.length
      = s.flushes.length + (s.hitResult.length + (m - s.totalLines)) / FLUSHBUFFER + 1 := by
  intro hs
  induction hs with
  | nil =>
    intro s hb hm0 hlt hle
    simp only [List.length_nil] at hle
    omega
  | cons v rest ih =>
    intro s hb hm0 hlt hle
    by_cases hv : s.totalLines + 1 = m
    · unfold procHits
      rw [if_pos ⟨hm0, by rw [stepHit_totalLines]; exact hv⟩]
      have htake : m - s.totalLines = 1 := by omega
      refine ⟨by simp; omega, rfl, ?_, ?_⟩
      · rw [procS_flushCall, procS_stepHit, htake]
        simp
      · rw [htake]
        have hfl := stepHit_flushes_length w v s hb
        show ((stepHit w v s).flushes ++ [(stepHit w v s).hitResult]).length
            = s.flushes.length + (s.hitResult.length + 1) / FLUSHBUFFER + 1
        simp only [List.length_append, List.length_cons, List.length_nil]
        omega
    · unfold procHits
      rw [if_neg (by rintro ⟨h1, h2⟩; rw [stepHit_totalLines] at h2; exact hv h2)]
      have hb2 : (stepHit w v s).hitResult.length < FLUSHBUFFER := by
        rw [stepHit_hitResult_length w v s hb]
        have hbL : FLUSHBUFFER = 1000 := rfl
        rw [hbL]; exact Nat.mod_lt _ (by omega)
      obtain ⟨ih1, ih2, ih3, ih4⟩ := ih (stepHit w v s) hb2 hm0
        (by rw [stepHit_totalLines]; omega)
        (by rw [stepHit_totalLines]; simp only [List.length_cons] at hle; omega)
      refine ⟨ih1, ih2, ?_, ?_⟩
      · rw [ih3, procS_stepHit, stepHit_totalLines]
        have hsplit : m - s.totalLines = (m - (s.totalLines + 1)) + 1 := by omega
        rw [hsplit, List.take_succ_cons]
        simp
      · rw [ih4, stepHit_flushes_length w v s hb, stepHit_hitResult_length w v s hb,
          stepHit_totalLines]
        have hbL : FLUSHBUFFER = 1000 := rfl
        rw [hbL] at hb ⊢
        omega


/-! ### Unfolding the pagination recursion -/

theorem pr_zero (m : Nat) (pages : Nat → Page) (w : Nat → Bool)
    (mode : Bool) (pg : Page) (s : St) :
    pr m pages w 0 mode pg s = none := rfl

theorem pr_succ_false (m : Nat) (pages : Nat → Page) (w : Nat → Bool)
    (fuel : Nat) (pg : Page) (s : St) :
    pr m pages w (fuel + 1) false pg s
      = if 0 < (setTotals m pg s).numResult ∧ pg.hits ≠ [] then
          (pr m pages w fuel true pg (setTotals m pg s)).map (residualFlush w)
        else some (setTotals m pg s) := rfl

theorem pr_succ_true (m : Nat) (pages : Nat → Page) (w : Nat → Bool)
    (fuel : Nat) (pg : Page) (s : St) :
    pr m pages w (fuel + 1) true pg s
      = if s.totalLines = s.numResult then some s
        else
          (pr m pages w fuel false
              (pages (procHits m w pg.hits (insertSID pg.scrollID s)).fetchCount)
              (bumpFetch (procHits m w pg.hits (insertSID pg.scrollID s)))).bind
            (pr m pages w fuel true pg) := rfl

/-- The `for totalLines != t.numResult` loop can only return normally with its
condition false: on exit `totalLines` equals the then-current `numResult`. -/
theorem pr_true_exit (m : Nat) (pages : Nat → Page) (w : Nat → Bool) :
    ∀ (fuel : Nat) (pg : Page) (s s' : St),
    pr m pages w fuel true pg s = some s' → s'.totalLines = s'.numResult := by
  intro fuel
  induction fuel with
  | zero =>
    intro pg s s' h
    rw [pr_zero] at h
    exact absurd h (by simp)
  | succ fuel ih =>
    intro pg s s' h
    rw [pr_succ_true] at h
    split at h
    · rename_i hc
      simp only [Option.some.injEq] at h
      subst h
      exact hc
    · rename_i hc
      cases hb : pr m pages w fuel false
          (pages (procHits m w pg.hits (insertSID pg.scrollID s)).fetchCount)
          (bumpFetch (procHits m w pg.hits (insertSID pg.scrollID s))) with
      | none => rw [hb, Option.none_bind] at h; exact absurd h (by simp)
      | some s4 =>
        rw [hb, Option.some_bind] at h
        exact ih pg s4 s' h

/-- No operation of the driver ever appends to `scrollIDs`: the slice that
`clearScroll` joins stays exactly as it started. -/
theorem pr_scrollIDs (m : Nat) (pages : Nat → Page) (w : Nat → Bool) :
    ∀ (fuel : Nat) (mode : Bool) (pg : Page) (s s' : St),
    pr m pages w fuel mode pg s = some s' → s'.scrollIDs = s.scrollIDs := by
  intro fuel
  induction fuel with
  | zero =>
    intro mode pg s s' h
    rw [pr_zero] at h
    exact absurd h (by simp)
  | succ fuel ih =>
    intro mode pg s s' h
    cases mode
    · rw [pr_succ_false] at h
      split at h
      · cases hb : pr m pages w fuel true pg (setTotals m pg s) with
        | none => rw [hb] at h; exact absurd h (by simp)
        | some s2 =>
          rw [hb, Option.map_some'] at h
          simp only [Option.some.injEq] at h
          subst h
          rw [residualFlush_scrollIDs, ih true pg (setTotals m pg s) s2 hb,
            setTotals_scrollIDs]
      · simp only [Option.some.injEq] at h
        subst h
        rw [setTotals_scrollIDs]
    · rw [pr_succ_true] at h
      split at h
      · simp only [Option.some.injEq] at h
        subst h
        rfl
      · cases hb : pr m pages w fuel false
            (pages (procHits m w pg.hits (insertSID pg.scrollID s)).fetchCount)
            (bumpFetch (procHits m w pg.hits (insertSID pg.scrollID s))) with
        | none => rw [hb, Option.none_bind] at h; exact absurd h (by simp)
        | some s4 =>
          rw [hb, Option.some_bind] at h
          rw [ih true pg s4 s' h, ih false _ _ s4 hb, bumpFetch_scrollIDs,
            procHits_scrollIDs, insertSID_scrollIDs]

/-- Every fetched page is parsed at once, and parsing a page stores its
reported total into `queryResult` (line 321): on normal return `queryResult`
holds the reported total of the most recently fetched page. -/
theorem pr_queryResult_last (m : Nat) (pages : Nat → Page) (w : Nat → Bool) :
    ∀ (fuel : Nat) (mode : Bool) (pg : Page) (s s' : St),
    (mode = false → pg = pages (s.fetchCount - 1) ∧ 1 ≤ s.fetchCount) →
    (mode = true →
      s.queryResult = (pages (s.fetchCount - 1)).total ∧ 1 ≤ s.fetchCount) →
    pr m pages w fuel mode pg s = some s' →
    s'.queryResult = (pages (s'.fetchCount - 1)).total ∧ 1 ≤ s'.fetchCount := by
  intro fuel
  induction fuel with
  | zero =>
    intro mode pg s s' hf ht h
    rw [pr_zero] at h
    exact absurd h (by simp)
  | succ fuel ih =>
    intro mode pg s s' hf ht h
    cases mode
    · obtain ⟨hpg, hfc⟩ := hf rfl
      have hset : (setTotals m pg s).queryResult
          = (pages ((setTotals m pg s).fetchCount - 1)).total ∧
          1 ≤ (setTotals m pg s).fetchCount := by
        rw [setTotals_queryResult, setTotals_fetchCount, hpg]
        exact ⟨rfl, hfc⟩
      rw [pr_succ_false] at h
      split at h
      · cases hb : pr m pages w fuel true pg (setTotals m pg s) with
        | none => rw [hb] at h; exact absurd h (by simp)
        | some s2 =>
          rw [hb, Option.map_some'] at h
          simp only [Option.some.injEq] at h
          subst h
          have h2 := ih true pg (setTotals m pg s) s2 (by intro hcon; cases hcon)
            (fun _ => hset) hb
          rw [residualFlush_queryResult, residualFlush_fetchCount]
          exact h2
      · simp only [Option.some.injEq] at h
        subst h
        exact hset
    · obtain ⟨hq, hfc⟩ := ht rfl
      rw [pr_succ_true] at h
      split at h
      · simp only [Option.some.injEq] at h
        subst h
        exact ⟨hq, hfc⟩
      · cases hb : pr m pages w fuel false
            (pages (procHits m w pg.hits (insertSID pg.scrollID s)).fetchCount)
            (bumpFetch (procHits m w pg.hits (insertSID pg.scrollID s))) with
        | none => rw [hb, Option.none_bind] at h; exact absurd h (by simp)
        | some s4 =>
          rw [hb, Option.some_bind] at h
          have hmid : pages (procHits m w pg.hits (insertSID pg.scrollID s)).fetchCount
              = pages ((bumpFetch (procHits m w pg.hits (insertSID pg.scrollID s))).fetchCount - 1)
              ∧ 1 ≤ (bumpFetch (procHits m w pg.hits (insertSID pg.scrollID s))).fetchCount := by
            rw [bumpFetch_fetchCount]
            exact ⟨by rw [Nat.add_sub_cancel], by omega⟩
          have h4 := ih false _ _ s4 (fun _ => ⟨hmid.1, hmid.2⟩) (by intro hcon; cases hcon) hb
          exact ih true pg s4 s' (by intro hcon; cases hcon) (fun _ => h4) h

/-- With no configured limit and every page reporting the same total `T`,
`numResult` equals `T` from the first `setTotals` on and stays there. -/
theorem pr_numResult_uniform (pages : Nat → Page) (w : Nat → Bool) (T : Nat)
    (HT : ∀ k, (pages k).total = T) :
    ∀ (fuel : Nat) (mode : Bool) (pg : Page) (s s' : St),
    (mode = false → pg.total = T) →
    (mode = true → s.numResult = T) →
    pr 0 pages w fuel mode pg s = some s' → s'.numResult = T := by
  intro fuel
  induction fuel with
  | zero =>
    intro mode pg s s' hf ht h
    rw [pr_zero] at h
    exact absurd h (by simp)
  | succ fuel ih =>
    intro mode pg s s' hf ht h
    cases mode
    · have hset : (setTotals 0 pg s).numResult = T := by
        rw [setTotals_numResult, if_neg (by omega), hf rfl]
      rw [pr_succ_false] at h
      split at h
      · cases hb : pr 0 pages w fuel true pg (setTotals 0 pg s) with
        | none => rw [hb] at h; exact absurd h (by simp)
        | some s2 =>
          rw [hb, Option.map_some'] at h
          simp only [Option.some.injEq] at h
          subst h
          rw [residualFlush_numResult]
          exact ih true pg (setTotals 0 pg s) s2 (by intro hcon; cases hcon)
            (fun _ => hset) hb
      · simp only [Option.some.injEq] at h
        subst h
        exact hset
    · rw [pr_succ_true] at h
      split at h
      · simp only [Option.some.injEq] at h
        subst h
        exact ht rfl
      · cases hb : pr 0 pages w fuel false
            (pages (procHits 0 w pg.hits (insertSID pg.scrollID s)).fetchCount)
            (bumpFetch (procHits 0 w pg.hits (insertSID pg.scrollID s))) with
        | none => rw [hb, Option.none_bind] at h; exact absurd h (by simp)
        | some s4 =>
          rw [hb, Option.some_bind] at h
          have h4 : s4.numResult = T :=
            ih false _ _ s4 (fun _ => HT _) (by intro hcon; cases hcon) hb
          exact ih true pg s4 s' (by intro hcon; cases hcon) (fun _ => h4) h


/-- `parseResult` on a page with no hits does nothing beyond storing the
page's totals (the guard at line 329 fails). -/
theorem pr_emptyPage (m : Nat) (pages : Nat → Page) (w : Nat → Bool)
    (fuel : Nat) (pg : Page) (s : St) (hh : pg.hits = []) (hfuel : 1 ≤ fuel) :
    pr m pages w fuel false pg s = some (setTotals m pg s) := by
  cases fuel with
  | zero => omega
  | succ f =>
    rw [pr_succ_false, if_neg (by rintro ⟨_, hcon⟩; exact hcon hh)]

/-- `parseResult` on any page while a positive limit is configured and
`totalLines` already equals it: the loop condition is false at once, the
buffer is empty, so only the totals are stored and no fetch is issued. -/
theorem pr_stall (m : Nat) (pages : Nat → Page) (w : Nat → Bool)
    (fuel : Nat) (pg : Page) (s : St) (hm : 0 < m) (htl : s.totalLines = m)
    (hbuf : s.hitResult = []) (hfuel : 2 ≤ fuel) :
    pr m pages w fuel false pg s = some (setTotals m pg s) := by
  cases fuel with
  | zero => omega
  | succ f =>
    rw [pr_succ_false]
    by_cases hh : pg.hits = []
    · rw [if_neg (by rintro ⟨_, hcon⟩; exact hcon hh)]
    · rw [if_pos ⟨by rw [setTotals_numResult, if_pos hm]; exact hm, hh⟩]
      cases f with
      | zero => omega
      | succ f2 =>
        rw [pr_succ_true,
          if_pos (by rw [setTotals_totalLines, setTotals_numResult, if_pos hm]; exact htl),
          Option.map_some']
        have : residualFlush w (setTotals m pg s) = setTotals m pg s := by
          unfold residualFlush
          rw [if_neg (by rw [setTotals_hitResult, hbuf]; simp)]
        rw [this]

/-! ### The sink's write-error value is discarded -/

theorem stepHit_werrs (e e' : Nat → Bool) (v : Nat) (s : St) :
    stepHit e v s = stepHit e' v s := rfl

theorem residualFlush_werrs (e e' : Nat → Bool) (s : St) :
    residualFlush e s = residualFlush e' s := rfl

theorem procHits_werrs (m : Nat) (e e' : Nat → Bool) :
    ∀ (hs : List Nat) (s : St), procHits m e hs s = procHits m e' hs s := by
  intro hs
  induction hs with
  | nil => intro s; rfl
  | cons v rest ih =>
    intro s
    unfold procHits
    rw [stepHit_werrs e e' v s]
    split
    · rfl
    · exact ih _

/-- The pagination recursion is entirely independent of the error values the
sink's `Write` returns: `flushToFile` discards them (line 377), so two runs
differing only in the write-error oracle produce identical states. -/
theorem pr_werrs (m : Nat) (pages : Nat → Page) (e e' : Nat → Bool) :
    ∀ (fuel : Nat) (mode : Bool) (pg : Page) (s : St),
    pr m pages e fuel mode pg s = pr m pages e' fuel mode pg s := by
  intro fuel
  induction fuel with
  | zero => intro mode pg s; rfl
  | succ fuel ih =>
    intro mode pg s
    cases mode
    · by_cases hc : 0 < (setTotals m pg s).numResult ∧ pg.hits ≠ []
      · rw [pr_succ_false, pr_succ_false, if_pos hc, if_pos hc,
          ih true pg (setTotals m pg s)]
        rfl
      · rw [pr_succ_false, pr_succ_false, if_neg hc, if_neg hc]
    · by_cases hc : s.totalLines = s.numResult
      · rw [pr_succ_true, pr_succ_true, if_pos hc, if_pos hc]
      · rw [pr_succ_true, pr_succ_true, if_neg hc, if_neg hc,
          procHits_werrs m e e' pg.hits (insertSID pg.scrollID s),
          ih false (pages (procHits m e' pg.hits (insertSID pg.scrollID s)).fetchCount)
            (bumpFetch (procHits m e' pg.hits (insertSID pg.scrollID s)))]
        have hfun : pr m pages e fuel true pg = pr m pages e' fuel true pg :=
          funext fun s0 => ih true pg s0
        rw [hfun]

/-! ### The zero-record continuation page makes the caller loop re-run -/

/-- On the `pagesHang` cluster with no limit, the `for totalLines != numResult`
loop never exits: `totalLines` stays even while the target stays 3, the empty
continuation pages advance nothing, and the first page's two records are
re-processed forever.  Whatever the fuel, the loop is still running when it
runs out. -/
theorem pr_hang (fuel : Nat) :
    ∀ (s : St), s.numResult = 3 → s.totalLines % 2 = 0 →
    1 ≤ s.fetchCount → s.hitResult.length < FLUSHBUFFER →
    pr 0 pagesHang noErr fuel true (pagesHang 0) s = none := by
  induction fuel with
  | zero => intro s h1 h2 h3 h4; rfl
  | succ fuel ih =>
    intro s h1 h2 h3 h4
    rw [pr_succ_true, if_neg (by omega)]
    have hhits : (pagesHang 0).hits = [7, 8] := rfl
    have hb1 : (insertSID (pagesHang 0).scrollID s).hitResult.length < FLUSHBUFFER := by
      rw [insertSID_hitResult]; exact h4
    obtain ⟨p1, p2, p3, p4⟩ := procHits_noBreak 0 noErr (pagesHang 0).hits
      (insertSID (pagesHang 0).scrollID s) hb1 (Or.inl rfl)
    have hfc : (procHits 0 noErr (pagesHang 0).hits
        (insertSID (pagesHang 0).scrollID s)).fetchCount = s.fetchCount := by
      rw [procHits_fetchCount, insertSID_fetchCount]
    have hpg : pagesHang (procHits 0 noErr (pagesHang 0).hits
        (insertSID (pagesHang 0).scrollID s)).fetchCount = ⟨"a", 3, []⟩ := by
      rw [hfc]; unfold pagesHang; rw [if_neg (by omega)]
    rw [hpg]
    cases fuel with
    | zero => rw [pr_zero, Option.none_bind]
    | succ fuel2 =>
      rw [pr_succ_false, if_neg (by simp), Option.some_bind]
      apply ih
      · rw [setTotals_numResult]; simp
      · rw [setTotals_totalLines, bumpFetch_totalLines, p1, insertSID_totalLines,
          hhits]
        simp only [List.length_cons, List.length_nil]
        omega
      · rw [setTotals_fetchCount, bumpFetch_fetchCount, hfc]; omega
      · rw [setTotals_hitResult, bumpFetch_hitResult, p3]
        have hbL : FLUSHBUFFER = 1000 := rfl
        rw [hbL]
        exact Nat.mod_lt _ (by omega)


/-! ### Well-behaved unlimited runs -/

/-- An unlimited run against a consistent cluster: the remaining pages carry
the nonempty hit lists `Ls`, every page reports the same total `T`, pages
beyond `Ls` are empty, and `T` equals `totalLines` plus the records still to
come.  Each page is then processed exactly once, in order: a frame processes
its page, fetches the next, and on return finds `totalLines = numResult`, so
it exits without re-processing; the last nonempty frame flushes the residual
buffer. -/
theorem goodRun (pages : Nat → Page) (w : Nat → Bool) (T : Nat)
    (HT : ∀ k, (pages k).total = T) :
    ∀ (Ls : List (List Nat)), Ls ≠ [] →
    ∀ (fuel : Nat) (pg : Page) (s : St),
    pg.total = T →
    pg.hits = Ls.getD 0 [] →
    (∀ i, 1 ≤ i → (pages (s.fetchCount - 1 + i)).hits = Ls.getD i []) →
    (∀ l ∈ Ls, l ≠ []) →
    1 ≤ s.fetchCount →
    s.hitResult.length < FLUSHBUFFER →
    s.totalLines + Ls.flatten.length = T →
    2 * Ls.length + 3 ≤ fuel →
    ∃ s', pr 0 pages w fuel false pg s = some s' ∧
      s'.totalLines = T ∧ s'.numResult = T ∧ s'.hitResult = [] ∧
      procS s' = procS s ++ Ls.flatten ∧
      s'.fetchCount = s.fetchCount + Ls.length ∧
      s'.flushes.length = s.flushes.length
        + (s.hitResult.length + Ls.flatten.length) / FLUSHBUFFER
        + (if (s.hitResult.length + Ls.flatten.length) % FLUSHBUFFER = 0
           then 0 else 1) := by
  intro Ls
  induction Ls with
  | nil => intro hne; exact absurd rfl hne
  | cons h t ih =>
    intro _ fuel pg s hptot hpg hch hne hfc hbl htl hfuel
    have hh0 : h ≠ [] := hne h (by simp)
    have hhlen : 0 < h.length := List.length_pos.mpr hh0
    have hfx : (h :: t : List (List Nat)).flatten.length
        = h.length + t.flatten.length := by
      simp [List.length_append]
    have hT0 : 0 < T := by omega
    have hpg0 : pg.hits = h := by simpa using hpg
    have hcond : 0 < (setTotals 0 pg s).numResult ∧ pg.hits ≠ [] := by
      constructor
      · rw [setTotals_numResult, if_neg (by omega), hptot]; exact hT0
      · rw [hpg0]; exact hh0
    have hnR : (setTotals 0 pg s).numResult = T := by
      rw [setTotals_numResult, if_neg (by omega), hptot]
    have hloopcond :
        ¬((setTotals 0 pg s).totalLines = (setTotals 0 pg s).numResult) := by
      rw [setTotals_totalLines, hnR]; omega
    have hbl1 : (insertSID pg.scrollID (setTotals 0 pg s)).hitResult.length
        < FLUSHBUFFER := by
      rw [insertSID_hitResult, setTotals_hitResult]; exact hbl
    obtain ⟨p1, p2, p3, p4⟩ := procHits_noBreak 0 w pg.hits
      (insertSID pg.scrollID (setTotals 0 pg s)) hbl1 (Or.inl rfl)
    have hfc2 : (procHits 0 w pg.hits
        (insertSID pg.scrollID (setTotals 0 pg s))).fetchCount
        = s.fetchCount := by
      rw [procHits_fetchCount, insertSID_fetchCount, setTotals_fetchCount]
    have htl2 : (procHits 0 w pg.hits
        (insertSID pg.scrollID (setTotals 0 pg s))).totalLines
        = s.totalLines + h.length := by
      rw [p1, insertSID_totalLines, setTotals_totalLines, hpg0]
    have hbuf2 : (procHits 0 w pg.hits
        (insertSID pg.scrollID (setTotals 0 pg s))).hitResult.length
        = (s.hitResult.length + h.length) % FLUSHBUFFER := by
      rw [p3, insertSID_hitResult, setTotals_hitResult, hpg0]
    have hfl2 : (procHits 0 w pg.hits
        (insertSID pg.scrollID (setTotals 0 pg s))).flushes.length
        = s.flushes.length + (s.hitResult.length + h.length) / FLUSHBUFFER := by
      rw [p4, insertSID_flushes, setTotals_flushes, insertSID_hitResult,
        setTotals_hitResult, hpg0]
    have hprocS2 : procS (procHits 0 w pg.hits
        (insertSID pg.scrollID (setTotals 0 pg s))) = procS s ++ h := by
      rw [p2, procS_insertSID, procS_setTotals, hpg0]
    have hnext : pages ((procHits 0 w pg.hits
        (insertSID pg.scrollID (setTotals 0 pg s))).fetchCount)
        = pages s.fetchCount := by rw [hfc2]
    have hnx1 : (pages s.fetchCount).hits = (h :: t).getD 1 [] := by
      have h1 := hch 1 (le_refl 1)
      have heq : s.fetchCount - 1 + 1 = s.fetchCount := by omega
      rwa [heq] at h1
    have hbL : FLUSHBUFFER = 1000 := rfl
    cases t with
    | nil =>
      have hnxE : (pages s.fetchCount).hits = [] := by simpa using hnx1
      simp only [List.length_cons, List.length_nil] at hfuel
      obtain ⟨f, rfl⟩ : ∃ f, fuel = f + 4 + 1 := ⟨fuel - 5, by omega⟩
      rw [pr_succ_false, if_pos hcond, pr_succ_true, if_neg hloopcond]
      rw [pr_emptyPage 0 pages w (f + 3)
        (pages ((procHits 0 w pg.hits
          (insertSID pg.scrollID (setTotals 0 pg s))).fetchCount))
        (bumpFetch (procHits 0 w pg.hits
          (insertSID pg.scrollID (setTotals 0 pg s))))
        (by rw [hnext]; exact hnxE) (by omega), Option.some_bind]
      have hexit : (setTotals 0
          (pages ((procHits 0 w pg.hits
            (insertSID pg.scrollID (setTotals 0 pg s))).fetchCount))
          (bumpFetch (procHits 0 w pg.hits
            (insertSID pg.scrollID (setTotals 0 pg s))))).totalLines
          = (setTotals 0
          (pages ((procHits 0 w pg.hits
            (insertSID pg.scrollID (setTotals 0 pg s))).fetchCount))
          (bumpFetch (procHits 0 w pg.hits
            (insertSID pg.scrollID (setTotals 0 pg s))))).numResult := by
        rw [setTotals_totalLines, bumpFetch_totalLines, htl2,
          setTotals_numResult, if_neg (by omega), HT]
        simp only [List.flatten_cons, List.flatten_nil, List.append_nil,
          List.length_nil] at htl hfx
        omega
      rw [pr_succ_true, if_pos hexit, Option.map_some']
      refine ⟨_, rfl, ?_, ?_, ?_, ?_, ?_, ?_⟩
      · rw [residualFlush_totalLines, setTotals_totalLines, bumpFetch_totalLines,
          htl2]
        simp only [List.flatten_cons, List.flatten_nil, List.append_nil,
          List.length_nil] at htl hfx
        omega
      · rw [residualFlush_numResult, setTotals_numResult, if_neg (by omega), HT]
      · exact residualFlush_hitResult w _
      · rw [procS_residualFlush, procS_setTotals, procS_bumpFetch, hprocS2]
        simp
      · rw [residualFlush_fetchCount, setTotals_fetchCount, bumpFetch_fetchCount,
          hfc2]
        simp
      · rw [residualFlush_flushes_length, setTotals_flushes, bumpFetch_flushes,
          setTotals_hitResult, bumpFetch_hitResult, hfl2]
        have hfz : (h :: (List.nil : List (List Nat))).flatten.length
            = h.length := by simp
        rw [hfz]
        by_cases hz : (s.hitResult.length + h.length) % FLUSHBUFFER = 0
        · rw [if_pos (List.length_eq_zero.mp (by rw [hbuf2, hz])), if_pos hz]
        · rw [if_neg (fun hcon => hz (by rw [← hbuf2, hcon]; rfl)), if_neg hz]
    | cons h2 t2 =>
      simp only [List.length_cons] at hfuel
      obtain ⟨f, rfl⟩ : ∃ f, fuel = f + 2 + 1 := ⟨fuel - 3, by omega⟩
      rw [pr_succ_false, if_pos hcond, pr_succ_true, if_neg hloopcond]
      have ihne : (h2 :: t2 : List (List Nat)) ≠ [] := by simp
      have hpg' : (pages ((procHits 0 w pg.hits
          (insertSID pg.scrollID (setTotals 0 pg s))).fetchCount)).hits
          = (h2 :: t2).getD 0 [] := by
        rw [hnext, hnx1]
        simp
      have hch' : ∀ i, 1 ≤ i →
          (pages ((bumpFetch (procHits 0 w pg.hits
            (insertSID pg.scrollID (setTotals 0 pg s)))).fetchCount - 1 + i)).hits
          = (h2 :: t2).getD i [] := by
        intro i hi
        rw [bumpFetch_fetchCount, hfc2]
        have heq : s.fetchCount + 1 - 1 + i = s.fetchCount - 1 + (i + 1) := by
          omega
        rw [heq, hch (i + 1) (by omega)]
        rfl
      have hneT : ∀ l ∈ (h2 :: t2 : List (List Nat)), l ≠ [] :=
        fun l hl => hne l (List.mem_cons_of_mem h hl)
      have hfc' : 1 ≤ (bumpFetch (procHits 0 w pg.hits
          (insertSID pg.scrollID (setTotals 0 pg s)))).fetchCount := by
        rw [bumpFetch_fetchCount]; omega
      have hbl' : (bumpFetch (procHits 0 w pg.hits
          (insertSID pg.scrollID (setTotals 0 pg s)))).hitResult.length
          < FLUSHBUFFER := by
        rw [bumpFetch_hitResult, hbuf2, hbL]
        exact Nat.mod_lt _ (by omega)
      have htl' : (bumpFetch (procHits 0 w pg.hits
          (insertSID pg.scrollID (setTotals 0 pg s)))).totalLines
          + (h2 :: t2).flatten.length = T := by
        rw [bumpFetch_totalLines, htl2]
        simp only [List.flatten_cons, List.length_append] at htl ⊢
        omega
      have hfuel' : 2 * (h2 :: t2 : List (List Nat)).length + 3 ≤ f + 1 := by
        simp only [List.length_cons]
        omega
      obtain ⟨s4, hrun4, c1, c2, c3, c4, c5, c6⟩ := ih ihne (f + 1)
        (pages ((procHits 0 w pg.hits
          (insertSID pg.scrollID (setTotals 0 pg s))).fetchCount))
        (bumpFetch (procHits 0 w pg.hits
          (insertSID pg.scrollID (setTotals 0 pg s))))
        (HT _) hpg' hch' hneT hfc' hbl' htl' hfuel'
      rw [hrun4, Option.some_bind, pr_succ_true, if_pos (by rw [c1, c2]),
        Option.map_some']
      refine ⟨_, rfl, ?_, ?_, ?_, ?_, ?_, ?_⟩
      · rw [residualFlush_totalLines, c1]
      · rw [residualFlush_numResult, c2]
      · exact residualFlush_hitResult w _
      · rw [procS_residualFlush, c4, procS_bumpFetch, hprocS2]
        simp [List.append_assoc]
      · rw [residualFlush_fetchCount, c5, bumpFetch_fetchCount, hfc2]
        simp only [List.length_cons]
        omega
      · rw [residualFlush_flushes_length, if_pos c3, c6, bumpFetch_flushes,
          bumpFetch_hitResult, hfl2, hbuf2]
        simp only [List.flatten_cons, List.length_append, hbL]
        split_ifs <;> omega


/-! ### Runs that hit a positive result limit -/

/-- A `maxResult = N` run whose limit falls inside the last list of `Ls`: the
earlier pages are processed whole, the limit-break of line 344-349 fires in
the frame of the last list after exactly `N - totalLines` of its records,
flushing and clearing the buffer — and then line 352 still fetches one more
page before every frame unwinds.  The page after the break page is arbitrary:
it is fetched but nothing of it is processed. -/
theorem limitRun (pages : Nat → Page) (w : Nat → Bool) (N : Nat) (hN : 0 < N) :
    ∀ (Ls : List (List Nat)), Ls ≠ [] →
    ∀ (fuel : Nat) (pg : Page) (s : St),
    pg.hits = Ls.getD 0 [] →
    (∀ i, 1 ≤ i → i < Ls.length →
      (pages (s.fetchCount - 1 + i)).hits = Ls.getD i []) →
    (∀ l ∈ Ls.dropLast, l ≠ []) →
    1 ≤ s.fetchCount →
    s.hitResult.length < FLUSHBUFFER →
    s.totalLines + Ls.dropLast.flatten.length < N →
    N ≤ s.totalLines + Ls.flatten.length →
    2 * Ls.length + 3 ≤ fuel →
    ∃ s', pr N pages w fuel false pg s = some s' ∧
      s'.totalLines = N ∧ s'.numResult = N ∧ s'.hitResult = [] ∧
      procS s' = procS s ++ Ls.flatten.take (N - s.totalLines) ∧
      s'.fetchCount = s.fetchCount + Ls.length ∧
      s'.flushes.length = s.flushes.length
        + (s.hitResult.length + (N - s.totalLines)) / FLUSHBUFFER + 1 := by
  intro Ls
  induction Ls with
  | nil => intro hne; exact absurd rfl hne
  | cons h t ih =>
    intro _ fuel pg s hpg hch hne hfc hbl hlo hhi hfuel
    have hpg0 : pg.hits = h := by simpa using hpg
    have hbL : FLUSHBUFFER = 1000 := rfl
    cases t with
    | nil =>
      simp only [List.length_cons, List.length_nil] at hfuel
      have hlo' : s.totalLines < N := by
        simpa [List.dropLast_single] using hlo
      have hhi' : N ≤ s.totalLines + h.length := by
        simpa using hhi
      have hh0 : pg.hits ≠ [] := by
        rw [hpg0]
        intro hcon
        rw [hcon] at hhi'
        simp at hhi'
        omega
      obtain ⟨f, rfl⟩ : ∃ f, fuel = f + 4 + 1 := ⟨fuel - 5, by omega⟩
      have hcond : 0 < (setTotals N pg s).numResult ∧ pg.hits ≠ [] := by
        refine ⟨?_, hh0⟩
        rw [setTotals_numResult, if_pos hN]
        exact hN
      have hloopcond :
          ¬((setTotals N pg s).totalLines = (setTotals N pg s).numResult) := by
        rw [setTotals_totalLines, setTotals_numResult, if_pos hN]
        omega
      rw [pr_succ_false, if_pos hcond, pr_succ_true, if_neg hloopcond]
      have hbl1 : (insertSID pg.scrollID (setTotals N pg s)).hitResult.length
          < FLUSHBUFFER := by
        rw [insertSID_hitResult, setTotals_hitResult]; exact hbl
      obtain ⟨q1, q2, q3, q4⟩ := procHits_break N w pg.hits
        (insertSID pg.scrollID (setTotals N pg s)) hbl1 hN
        (by rw [insertSID_totalLines, setTotals_totalLines]; exact hlo')
        (by rw [insertSID_totalLines, setTotals_totalLines, hpg0]; exact hhi')
      have hfc2 : (procHits N w pg.hits
          (insertSID pg.scrollID (setTotals N pg s))).fetchCount
          = s.fetchCount := by
        rw [procHits_fetchCount, insertSID_fetchCount, setTotals_fetchCount]
      rw [pr_stall N pages w (f + 3)
        (pages ((procHits N w pg.hits
          (insertSID pg.scrollID (setTotals N pg s))).fetchCount))
        (bumpFetch (procHits N w pg.hits
          (insertSID pg.scrollID (setTotals N pg s))))
        hN (by rw [bumpFetch_totalLines]; exact q1)
        (by rw [bumpFetch_hitResult]; exact q2) (by omega), Option.some_bind]
      have hexit : (setTotals N
          (pages ((procHits N w pg.hits
            (insertSID pg.scrollID (setTotals N pg s))).fetchCount))
          (bumpFetch (procHits N w pg.hits
            (insertSID pg.scrollID (setTotals N pg s))))).totalLines
          = (setTotals N
          (pages ((procHits N w pg.hits
            (insertSID pg.scrollID (setTotals N pg s))).fetchCount))
          (bumpFetch (procHits N w pg.hits
            (insertSID pg.scrollID (setTotals N pg s))))).numResult := by
        rw [setTotals_totalLines, bumpFetch_totalLines, q1,
          setTotals_numResult, if_pos hN]
      rw [pr_succ_true, if_pos hexit, Option.map_some']
      refine ⟨_, rfl, ?_, ?_, ?_, ?_, ?_, ?_⟩
      · rw [residualFlush_totalLines, setTotals_totalLines, bumpFetch_totalLines,
          q1]
      · rw [residualFlush_numResult, setTotals_numResult, if_pos hN]
      · exact residualFlush_hitResult w _
      · rw [procS_residualFlush, procS_setTotals, procS_bumpFetch, q3,
          procS_insertSID, procS_setTotals, insertSID_totalLines,
          setTotals_totalLines, hpg0]
        simp
      · rw [residualFlush_fetchCount, setTotals_fetchCount, bumpFetch_fetchCount,
          hfc2]
        simp
      · rw [residualFlush_flushes_length,
          if_pos (by rw [setTotals_hitResult, bumpFetch_hitResult]; exact q2),
          setTotals_flushes, bumpFetch_flushes, q4, insertSID_flushes,
          setTotals_flushes, insertSID_hitResult, setTotals_hitResult,
          insertSID_totalLines, setTotals_totalLines]
    | cons h2 t2 =>
      simp only [List.length_cons] at hfuel
      have hh0 : h ≠ [] := hne h (by rw [List.dropLast_cons₂]; simp)
      have hdl : (h :: h2 :: t2 : List (List Nat)).dropLast
          = h :: (h2 :: t2).dropLast := List.dropLast_cons₂
      rw [hdl] at hlo hne
      simp only [List.flatten_cons, List.length_append] at hlo hhi
      have hlo1 : s.totalLines + h.length < N := by
        omega
      obtain ⟨f, rfl⟩ : ∃ f, fuel = f + 2 + 1 := ⟨fuel - 3, by omega⟩
      have hcond : 0 < (setTotals N pg s).numResult ∧ pg.hits ≠ [] := by
        refine ⟨?_, by rw [hpg0]; exact hh0⟩
        rw [setTotals_numResult, if_pos hN]
        exact hN
      have hloopcond :
          ¬((setTotals N pg s).totalLines = (setTotals N pg s).numResult) := by
        rw [setTotals_totalLines, setTotals_numResult, if_pos hN]
        omega
      rw [pr_succ_false, if_pos hcond, pr_succ_true, if_neg hloopcond]
      have hbl1 : (insertSID pg.scrollID (setTotals N pg s)).hitResult.length
          < FLUSHBUFFER := by
        rw [insertSID_hitResult, setTotals_hitResult]; exact hbl
      obtain ⟨p1, p2, p3, p4⟩ := procHits_noBreak N w pg.hits
        (insertSID pg.scrollID (setTotals N pg s)) hbl1
        (Or.inr (by rw [insertSID_totalLines, setTotals_totalLines, hpg0]; omega))
      have hfc2 : (procHits N w pg.hits
          (insertSID pg.scrollID (setTotals N pg s))).fetchCount
          = s.fetchCount := by
        rw [procHits_fetchCount, insertSID_fetchCount, setTotals_fetchCount]
      have htl2 : (procHits N w pg.hits
          (insertSID pg.scrollID (setTotals N pg s))).totalLines
          = s.totalLines + h.length := by
        rw [p1, insertSID_totalLines, setTotals_totalLines, hpg0]
      have hbuf2 : (procHits N w pg.hits
          (insertSID pg.scrollID (setTotals N pg s))).hitResult.length
          = (s.hitResult.length + h.length) % FLUSHBUFFER := by
        rw [p3, insertSID_hitResult, setTotals_hitResult, hpg0]
      have hfl2 : (procHits N w pg.hits
          (insertSID pg.scrollID (setTotals N pg s))).flushes.length
          = s.flushes.length + (s.hitResult.length + h.length) / FLUSHBUFFER := by
        rw [p4, insertSID_flushes, setTotals_flushes, insertSID_hitResult,
          setTotals_hitResult, hpg0]
      have hprocS2 : procS (procHits N w pg.hits
          (insertSID pg.scrollID (setTotals N pg s))) = procS s ++ h := by
        rw [p2, procS_insertSID, procS_setTotals, hpg0]
      have hnext : pages ((procHits N w pg.hits
          (insertSID pg.scrollID (setTotals N pg s))).fetchCount)
          = pages s.fetchCount := by rw [hfc2]
      have hpg' : (pages ((procHits N w pg.hits
          (insertSID pg.scrollID (setTotals N pg s))).fetchCount)).hits
          = (h2 :: t2).getD 0 [] := by
        rw [hnext]
        have h1 := hch 1 (le_refl 1) (by simp only [List.length_cons]; omega)
        have heq : s.fetchCount - 1 + 1 = s.fetchCount := by omega
        rw [heq] at h1
        rw [h1]
        simp
      have hch' : ∀ i, 1 ≤ i → i < (h2 :: t2 : List (List Nat)).length →
          (pages ((bumpFetch (procHits N w pg.hits
            (insertSID pg.scrollID (setTotals N pg s)))).fetchCount - 1 + i)).hits
          = (h2 :: t2).getD i [] := by
        intro i hi hilen
        rw [bumpFetch_fetchCount, hfc2]
        have heq : s.fetchCount + 1 - 1 + i = s.fetchCount - 1 + (i + 1) := by
          omega
        rw [heq, hch (i + 1) (by omega)
          (by simp only [List.length_cons] at hilen ⊢; omega)]
        simp
      have hneT : ∀ l ∈ (h2 :: t2 : List (List Nat)).dropLast, l ≠ [] :=
        fun l hl => hne l (List.mem_cons_of_mem h hl)
      have hfc' : 1 ≤ (bumpFetch (procHits N w pg.hits
          (insertSID pg.scrollID (setTotals N pg s)))).fetchCount := by
        rw [bumpFetch_fetchCount]; omega
      have hbl' : (bumpFetch (procHits N w pg.hits
          (insertSID pg.scrollID (setTotals N pg s)))).hitResult.length
          < FLUSHBUFFER := by
        rw [bumpFetch_hitResult, hbuf2, hbL]
        exact Nat.mod_lt _ (by omega)
      have hlo' : (bumpFetch (procHits N w pg.hits
          (insertSID pg.scrollID (setTotals N pg s)))).totalLines
          + (h2 :: t2).dropLast.flatten.length < N := by
        rw [bumpFetch_totalLines, htl2]
        omega
      have hhi' : N ≤ (bumpFetch (procHits N w pg.hits
          (insertSID pg.scrollID (setTotals N pg s)))).totalLines
          + (h2 :: t2).flatten.length := by
        rw [bumpFetch_totalLines, htl2]
        simp only [List.flatten_cons, List.length_append]
        omega
      have hfuel' : 2 * (h2 :: t2 : List (List Nat)).length + 3 ≤ f + 1 := by
        simp only [List.length_cons]
        omega
      obtain ⟨s4, hrun4, c1, c2, c3, c4, c5, c6⟩ := ih (by simp) (f + 1)
        (pages ((procHits N w pg.hits
          (insertSID pg.scrollID (setTotals N pg s))).fetchCount))
        (bumpFetch (procHits N w pg.hits
          (insertSID pg.scrollID (setTotals N pg s))))
        hpg' hch' hneT hfc' hbl' hlo' hhi' hfuel'
      rw [hrun4, Option.some_bind, pr_succ_true, if_pos (by rw [c1, c2]),
        Option.map_some']
      refine ⟨_, rfl, ?_, ?_, ?_, ?_, ?_, ?_⟩
      · rw [residualFlush_totalLines, c1]
      · rw [residualFlush_numResult, c2]
      · exact residualFlush_hitResult w _
      · rw [procS_residualFlush, c4, procS_bumpFetch, hprocS2, bumpFetch_totalLines,
          htl2]
        have hsplit : List.take (N - s.totalLines)
            (h :: h2 :: t2 : List (List Nat)).flatten
            = h ++ List.take (N - (s.totalLines + h.length)) (h2 :: t2).flatten := by
          rw [List.flatten_cons, List.take_append_eq_append_take,
            List.take_of_length_le (by omega : h.length ≤ N - s.totalLines)]
          have harith : N - s.totalLines - h.length
              = N - (s.totalLines + h.length) := by omega
          rw [harith]
        rw [hsplit, List.append_assoc]
      · rw [residualFlush_fetchCount, c5, bumpFetch_fetchCount, hfc2]
        simp only [List.length_cons]
        omega
      · rw [residualFlush_flushes_length, if_pos c3, c6, bumpFetch_flushes,
          bumpFetch_hitResult, bumpFetch_totalLines, hfl2, hbuf2, htl2]
        simp only [hbL]
        omega


/-! ### The claims -/

/-- C10: when the initial search or a continuation scroll call yields an error
value, the client returns no response; `scroll` and `search` then evaluate
`res.Body` in the `defer` statement *before* the `err != nil` check, so the
process panics with a nil dereference instead of reaching the `log.Fatalf`
branch with its descriptive message. -/
theorem claimC10 : respHandle none true = FetchOutcome.nilPanic ∧
    respHandle none true ≠ FetchOutcome.fatalLogged := ⟨rfl, by decide⟩

/-- C2: on the `pagesHang` cluster — first page reports total 3 with two
records, every continuation page has zero records but reports total 3 — the
first continuation fetch returns a zero-record page while only 2 of the
target 3 records are emitted.  Instead of terminating, the enclosing loop
re-processes its page forever: however much fuel the recursion is given, the
run never returns. -/
theorem claimC2 : (pagesHang 1).hits = [] ∧ (pagesHang 1).total = 3 ∧
    ∀ fuel : Nat, runApp 0 pagesHang noErr fuel = none := by
  refine ⟨rfl, rfl, ?_⟩
  intro fuel
  cases fuel with
  | zero => rfl
  | succ f =>
    unfold runApp
    rw [pr_succ_false, if_pos (by decide),
      pr_hang f (setTotals 0 (pagesHang 0) stInit) (by decide) (by decide)
        (by decide) (by decide)]
    rfl

/-- C3: the cursor-release argument is empty on every run.  `clearScroll`
joins `t.scrollIDs` (line 382), but nothing ever appends to that slice — the
observed tokens are collected in the separate `sIDs` set — so the scroll-id
string the release would carry is always `""`, regardless of the tokens seen.
(The built request option is, moreover, never executed.) -/
theorem claimC3 (m : Nat) (pages : Nat → Page) (w : Nat → Bool) (fuel : Nat)
    (s' : St) (h : runApp m pages w fuel = some s') :
    clearScrollArg s' = "" := by
  have h0 := pr_scrollIDs m pages w fuel false (pages 0) stInit s' h
  unfold clearScrollArg
  rw [h0]
  rfl

/-- C3 witness: the `pagesDup` run observes the token `"a"` (it is in `sIDs`),
yet the release argument derived from `scrollIDs` is the empty string. -/
theorem claimC3_witness :
    runApp 0 pagesDup noErr 10 = some stDup ∧ stDup.sIDs = ["a"] ∧
    clearScrollArg stDup = "" :=
  ⟨rfl, rfl, claimC3 0 pagesDup noErr 10 stDup rfl⟩

/-- C4 counterexample: with `maxResult = 1` against `pagesLimitCx` (first page
total 5, second page total 9) the run handles a continuation page and
completes with `queryResult = 9`: the stored total no longer equals the first
page's reported total 5. -/
theorem claimC4_counterexample :
    runApp 1 pagesLimitCx noErr 10 = some stLimitCx ∧
    (pagesLimitCx 0).total = 5 ∧ stLimitCx.queryResult = 9 ∧
    stLimitCx.queryResult ≠ (pagesLimitCx 0).total :=
  ⟨rfl, rfl, rfl, by decide⟩

/-- C4 amended: `parseResult` re-assigns `queryResult` from every page it
parses (line 321 runs per call), so after the run the stored total equals the
reported total of the most recently fetched page — the first page's total
governs only while no later page reports a different value. -/
theorem claimC4 (m : Nat) (pages : Nat → Page) (w : Nat → Bool) (fuel : Nat)
    (s' : St) (h : runApp m pages w fuel = some s') :
    s'.queryResult = (pages (s'.fetchCount - 1)).total := by
  have h2 := pr_queryResult_last m pages w fuel false (pages 0) stInit s'
    (fun _ => ⟨rfl, by decide⟩) (fun hcon => Bool.noConfusion hcon) h
  exact h2.1

/-- C4 witness: the amended claim evaluated on the `pagesLimitCx` run. -/
theorem claimC4_witness :
    stLimitCx.queryResult = (pagesLimitCx (stLimitCx.fetchCount - 1)).total :=
  claimC4 1 pagesLimitCx noErr 10 stLimitCx rfl

/-- C8 amended: `flushToFile` discards the `(n, err)` returned by
`output.Write` (line 377), so the run's entire outcome — success and all
recorded state — is identical under any two write-error oracles; a
successful run implies nothing about whether the writes succeeded. -/
theorem claimC8 (m : Nat) (pages : Nat → Page) (e e' : Nat → Bool)
    (fuel : Nat) :
    runApp m pages e fuel = runApp m pages e' fuel :=
  pr_werrs m pages e e' fuel false (pages 0) stInit

/-- C8 counterexample: a run whose sink reports an error on every `Write`
call still completes successfully, having performed one (failed) write of all
three records: write failure is not fatal to the run. -/
theorem claimC8_counterexample :
    allErr 0 = true ∧
    ∃ s', runApp 0 pagesShort allErr 10 = some s' ∧ s'.flushes = [[1, 2, 3]] :=
  ⟨rfl, (runApp 0 pagesShort allErr 10).getD stInit, rfl, rfl⟩

/-- C9 counterexample: flushing a buffer whose only record fails to serialize
writes one byte — a bare newline — to the sink, not nothing; in a mixed
buffer the failed record yields an empty line in front of the next record's
line rather than being absent from the output. -/
theorem claimC9_counterexample :
    mFail 1 = none ∧ flushBytes mFail [1] = "\n" ∧ flushBytes mFail [1] ≠ "" ∧
    flushLines mFail [1, 2] = ["", "2"] :=
  ⟨rfl, rfl, by decide, rfl⟩

/-- C9 amended: a record whose payload fails JSON serialization has its
payload dropped but still contributes one newline-terminated empty line to
the flush output (`json.Marshal`'s error is ignored and the nil bytes are
written followed by the newline, lines 371-374); the flush continues without
error and every other record in the buffer is written, in order. -/
theorem claimC9 (marshal : Nat → Option String) (pre post : List Nat)
    (v : Nat) (h : marshal v = none) :
    flushLines marshal (pre ++ v :: post)
      = flushLines marshal pre ++ [""] ++ flushLines marshal post := by
  unfold flushLines
  simp [h]

/-- C9 witness: the amended claim evaluated at a concrete buffer. -/
theorem claimC9_witness :
    flushLines mFail ([2] ++ 1 :: [3])
      = flushLines mFail [2] ++ [""] ++ flushLines mFail [3] :=
  claimC9 mFail [2] [3] 1 rfl


/-- C6 counterexample: `pagesShort` reports total 5 on its first page (three
records) and total 3 on the empty continuation page; the run fetches pages to
exhaustion and completes — but with `emittedCount = 3`, not the first page's
reported total 5, because `numResult` was recomputed from the later page. -/
theorem claimC6_counterexample :
    ∃ s', runApp 0 pagesShort noErr 10 = some s' ∧
      (pagesShort 0).total = 5 ∧ s'.totalLines = 3 ∧
      s'.totalLines ≠ (pagesShort 0).total :=
  ⟨(runApp 0 pagesShort noErr 10).getD stInit, rfl, rfl, rfl, by decide⟩

/-- C6 amended: with `resultLimit = 0`, on successful completion
`emittedCount` equals the *current* stored total, which is re-read from every
page; it therefore equals the totalMatched reported on the first page
provided every fetched page reports that same total (and the first page is
nonempty with a positive total). -/
theorem claimC6 (pages : Nat → Page) (w : Nat → Bool) (T : Nat) (fuel : Nat)
    (s' : St) (HT : ∀ k, (pages k).total = T) (h0 : (pages 0).hits ≠ [])
    (hT : 0 < T) (h : runApp 0 pages w fuel = some s') :
    s'.totalLines = T := by
  unfold runApp at h
  cases fuel with
  | zero =>
    rw [pr_zero] at h
    exact absurd h (by simp)
  | succ f =>
    rw [pr_succ_false,
      if_pos ⟨by rw [setTotals_numResult, if_neg (by omega), HT]; exact hT, h0⟩]
      at h
    cases hb : pr 0 pages w f true (pages 0) (setTotals 0 (pages 0) stInit) with
    | none => rw [hb] at h; exact absurd h (by simp)
    | some s2 =>
      rw [hb, Option.map_some'] at h
      simp only [Option.some.injEq] at h
      subst h
      have hx := pr_true_exit 0 pages w f (pages 0)
        (setTotals 0 (pages 0) stInit) s2 hb
      have hn := pr_numResult_uniform pages w T HT f true (pages 0)
        (setTotals 0 (pages 0) stInit) s2 (fun hcon => Bool.noConfusion hcon)
        (fun _ => by rw [setTotals_numResult, if_neg (by omega), HT]) hb
      rw [residualFlush_totalLines, hx, hn]

/-- C6 witness: the amended claim evaluated on the consistent three-page
`pagesGood` cluster (total 5 on every page): the run emits 5 records. -/
theorem claimC6_witness :
    ∃ s', runApp 0 pagesGood noErr 12 = some s' ∧ s'.totalLines = 5 :=
  ⟨(runApp 0 pagesGood noErr 12).getD stInit, rfl,
    claimC6 pagesGood noErr 5 12 ((runApp 0 pagesGood noErr 12).getD stInit)
      (by intro k; rcases k with _ | _ | _ | n <;> rfl) (by decide) (by decide)
      rfl⟩

/-- C5 counterexample: the `pagesDup` cluster returns the single record 7
exactly once (no duplicates across pages), yet the completed run's sink
output is `[7, 7]`: the zero-record continuation page with an unmet target
makes the loop re-process the first page, duplicating its record. -/
theorem claimC5_counterexample :
    (pagesDup 0).hits = [7] ∧ (∀ k, 1 ≤ k → (pagesDup k).hits = []) ∧
    ∃ s', runApp 0 pagesDup noErr 10 = some s' ∧
      s'.flushes.flatten = [7, 7] ∧ ¬ s'.flushes.flatten.Nodup := by
  refine ⟨rfl, ?_, (runApp 0 pagesDup noErr 10).getD stInit, rfl, rfl,
    by decide⟩
  intro k hk
  unfold pagesDup
  rw [if_neg (by omega)]

/-- C5 amended: given additionally that every page reports the same total,
that the pages before exhaustion are nonempty, and that the reported total
equals the number of records the cluster returns, the records flushed to the
sink are exactly the cluster's record sequence, page by page, in order —
length `emittedCount`, no reordering, no duplication.  (Without the extra
conditions the zero-page re-processing of C2 can duplicate records.) -/
theorem claimC5 (pages : Nat → Page) (w : Nat → Bool) (T : Nat)
    (Ls : List (List Nat)) (fuel : Nat)
    (HT : ∀ k, (pages k).total = T)
    (hpg : (pages 0).hits = Ls.getD 0 [])
    (hch : ∀ i, 1 ≤ i → (pages i).hits = Ls.getD i [])
    (hne : ∀ l ∈ Ls, l ≠ [])
    (hLs : Ls ≠ [])
    (hT : Ls.flatten.length = T)
    (hfuel : 2 * Ls.length + 3 ≤ fuel) :
    ∃ s', runApp 0 pages w fuel = some s' ∧
      s'.flushes.flatten = Ls.flatten ∧
      s'.totalLines = Ls.flatten.length := by
  obtain ⟨s', hrun, c1, _, c3, c4, _, _⟩ := goodRun pages w T HT Ls hLs fuel
    (pages 0) stInit (HT 0) hpg
    (fun i hi => by
      have heq : stInit.fetchCount - 1 + i = i := by
        show 1 - 1 + i = i; omega
      rw [heq]; exact hch i hi)
    hne (by decide) (by decide)
    (by show 0 + Ls.flatten.length = T; omega) hfuel
  refine ⟨s', hrun, ?_, by rw [c1, hT]⟩
  have h1 : s'.flushes.flatten = procS s' := by
    unfold procS
    rw [c3, List.append_nil]
  rw [h1, c4]
  rfl

/-- C5 witness: the amended claim evaluated on the consistent three-page
`pagesGood` cluster: the sink receives exactly `[1, 2, 3, 4, 5]`. -/
theorem claimC5_witness :
    ∃ s', runApp 0 pagesGood noErr 9 = some s' ∧
      s'.flushes.flatten = ([[1, 2], [3, 4], [5]] : List (List Nat)).flatten ∧
      s'.totalLines = ([[1, 2], [3, 4], [5]] : List (List Nat)).flatten.length :=
  claimC5 pagesGood noErr 5 [[1, 2], [3, 4], [5]] 9
    (by intro k; rcases k with _ | _ | _ | n <;> rfl)
    rfl
    (by intro i hi; rcases i with _ | _ | _ | n
        · omega
        · rfl
        · rfl
        · rfl)
    (by decide) (by decide) rfl (by decide)

/-- C1 counterexample: a `maxResult = 1` run against `pagesLimitCx` emits
exactly 1 record — the first record, which lies in page 0 — stops processing
page 0, yet performs 2 fetches: the unconditional `t.scroll` of line 352 runs
even after the limit-break, fetching one page beyond the page containing the
Nth record. -/
theorem claimC1_counterexample :
    ∃ s', runApp 1 pagesLimitCx noErr 10 = some s' ∧
      s'.totalLines = 1 ∧ (pagesLimitCx 0).hits = [10, 20] ∧
      s'.flushes.flatten = [10] ∧ s'.fetchCount = 2 :=
  ⟨(runApp 1 pagesLimitCx noErr 10).getD stInit, rfl, rfl, rfl, rfl, rfl⟩

/-- C1 amended: for `resultLimit = N > 0` with the limit falling inside the
pages `Ls` (the earlier pages nonempty and short of `N`, the records through
`N` available), the run emits exactly `N` records — the first `N` in cluster
order — and stops processing the page containing the Nth record; but it
issues exactly one page fetch beyond that page: fetches `0 .. Ls.length` are
performed, while the Nth record lies in page `Ls.length - 1`. -/
theorem claimC1 (pages : Nat → Page) (w : Nat → Bool) (N : Nat)
    (Ls : List (List Nat)) (fuel : Nat) (hN : 0 < N) (hLs : Ls ≠ [])
    (hpg : (pages 0).hits = Ls.getD 0 [])
    (hch : ∀ i, 1 ≤ i → i < Ls.length → (pages i).hits = Ls.getD i [])
    (hne : ∀ l ∈ Ls.dropLast, l ≠ [])
    (hlo : Ls.dropLast.flatten.length < N)
    (hhi : N ≤ Ls.flatten.length)
    (hfuel : 2 * Ls.length + 3 ≤ fuel) :
    ∃ s', runApp N pages w fuel = some s' ∧
      s'.totalLines = N ∧
      s'.flushes.flatten = Ls.flatten.take N ∧
      s'.fetchCount = Ls.length + 1 := by
  obtain ⟨s', hrun, c1, _, c3, c4, c5, _⟩ := limitRun pages w N hN Ls hLs fuel
    (pages 0) stInit hpg
    (fun i hi hilen => by
      have heq : stInit.fetchCount - 1 + i = i := by
        show 1 - 1 + i = i; omega
      rw [heq]; exact hch i hi hilen)
    hne (by decide) (by decide)
    (by show 0 + Ls.dropLast.flatten.length < N; omega)
    (by show N ≤ 0 + Ls.flatten.length; omega) hfuel
  refine ⟨s', hrun, c1, ?_, ?_⟩
  · have h1 : s'.flushes.flatten = procS s' := by
      unfold procS
      rw [c3, List.append_nil]
    rw [h1, c4]
    rfl
  · rw [c5]
    show 1 + Ls.length = Ls.length + 1
    omega

/-- C1 witness: the amended claim on `pagesLim` with `N = 3`: the run emits
records 10, 20, 30, the 3rd record lies in page 1, and 3 fetches (pages 0, 1
and 2) are issued — one beyond page 1. -/
theorem claimC1_witness :
    ∃ s', runApp 3 pagesLim noErr 9 = some s' ∧
      s'.totalLines = 3 ∧
      s'.flushes.flatten = ([[10, 20], [30, 40]] : List (List Nat)).flatten.take 3 ∧
      s'.fetchCount = 3 := by
  have h := claimC1 pagesLim noErr 3 [[10, 20], [30, 40]] 9 (by decide)
    (by decide) rfl
    (by intro i h1 h2
        rcases i with _ | _ | n
        · omega
        · rfl
        · simp only [List.length_cons, List.length_nil] at h2; omega)
    (by decide) (by decide) (by decide) (by decide)
  exact h


/-- C7 counterexample: a run that emits exactly 1000 records can perform 2
flush calls, not 1: with `resultLimit = 1000` against a 1000-record page, the
threshold flush at the 1000th record is immediately followed by the
limit-flush of line 345, which flushes the just-cleared, empty buffer — a
second `flushToFile` call. -/
theorem claimC7_counterexample :
    ∃ s', runApp 1000 pages1000 noErr 9 = some s' ∧ s'.totalLines = 1000 ∧
      s'.flushes.length = 2 := by
  obtain ⟨s', hrun, c1, _, _, _, _, c6⟩ := limitRun pages1000 noErr 1000
    (by omega) [List.replicate 1000 0] (by intro hcon; cases hcon) 9
    (pages1000 0) stInit rfl
    (by intro i hi hilen
        simp only [List.length_cons, List.length_nil] at hilen
        omega)
    (by intro l hl
        rw [List.dropLast_single] at hl
        exact absurd hl (List.not_mem_nil l))
    (by decide) (by decide)
    (by show 0 + (([List.replicate 1000 0] :
          List (List Nat)).dropLast).flatten.length < 1000
        simp only [List.dropLast_single, List.flatten_nil, List.length_nil]
        omega)
    (by show 1000 ≤ 0 + ([List.replicate 1000 0] :
          List (List Nat)).flatten.length
        simp only [List.flatten_cons, List.flatten_nil, List.append_nil,
          List.length_replicate]
        omega)
    (by simp only [List.length_cons, List.length_nil]; omega)
  refine ⟨s', hrun, c1, ?_⟩
  rw [c6]
  show 0 + (0 + (1000 - 0)) / FLUSHBUFFER + 1 = 2
  rfl

/-- C7 amended: with `resultLimit = 0` the flush counts match the claim —
synthetic sources of exactly 1000, 1001 and 999 records produce 1, 2 and 1
`flushToFile` calls respectively (threshold flushes plus one trailing flush
for a nonzero residual) — but when a positive result limit is hit, line 345
performs an additional flush at the limit point even if the buffer is empty,
so a run emitting exactly 1000 records under `resultLimit = 1000` performs 2
flush calls. -/
theorem claimC7 :
    (∃ s', runApp 0 pages1000 noErr 9 = some s' ∧ s'.totalLines = 1000 ∧
      s'.flushes.length = 1) ∧
    (∃ s', runApp 0 pages1001 noErr 9 = some s' ∧ s'.totalLines = 1001 ∧
      s'.flushes.length = 2) ∧
    (∃ s', runApp 0 pages999 noErr 9 = some s' ∧ s'.totalLines = 999 ∧
      s'.flushes.length = 1) ∧
    (∃ s', runApp 1000 pages1000 noErr 9 = some s' ∧ s'.totalLines = 1000 ∧
      s'.flushes.length = 2) := by
  refine ⟨?_, ?_, ?_, ?_⟩
  · obtain ⟨s', hrun, c1, _, _, _, _, c6⟩ := goodRun pages1000 noErr 1000
      (by intro k; unfold pages1000; split <;> rfl)
      [List.replicate 1000 0] (by intro hcon; cases hcon) 9
      (pages1000 0) stInit rfl rfl
      (by intro i hi
          have heq : stInit.fetchCount - 1 + i = i := by
            show 1 - 1 + i = i; omega
          rw [heq]
          unfold pages1000
          rw [if_neg (by omega)]
          rcases i with _ | n
          · omega
          · rfl)
      (by intro l hl
          rw [List.mem_singleton] at hl
          subst hl
          intro hcon
          have hlen := congrArg List.length hcon
          rw [List.length_replicate, List.length_nil] at hlen
          omega)
      (by decide) (by decide)
      (by show 0 + ([List.replicate 1000 0] :
            List (List Nat)).flatten.length = 1000
          simp only [List.flatten_cons, List.flatten_nil, List.append_nil,
            List.length_replicate])
      (by simp only [List.length_cons, List.length_nil]; omega)
    refine ⟨s', hrun, c1, ?_⟩
    rw [c6]
    have hfl : ([List.replicate 1000 0] : List (List Nat)).flatten.length
        = 1000 := by
      simp only [List.flatten_cons, List.flatten_nil, List.append_nil,
        List.length_replicate]
    rw [hfl]
    show 0 + (0 + 1000) / FLUSHBUFFER
        + (if (0 + 1000) % FLUSHBUFFER = 0 then 0 else 1) = 1
    rfl
  · obtain ⟨s', hrun, c1, _, _, _, _, c6⟩ := goodRun pages1001 noErr 1001
      (by intro k; rcases k with _ | _ | n <;> rfl)
      [List.replicate 1000 0, [7]] (by intro hcon; cases hcon) 9
      (pages1001 0) stInit rfl rfl
      (by intro i hi
          have heq : stInit.fetchCount - 1 + i = i := by
            show 1 - 1 + i = i; omega
          rw [heq]
          rcases i with _ | _ | n
          · omega
          · rfl
          · rfl)
      (by intro l hl
          rw [List.mem_cons] at hl
          rcases hl with h1 | h1
          · subst h1
            intro hcon
            have hlen := congrArg List.length hcon
            rw [List.length_replicate, List.length_nil] at hlen
            omega
          · rw [List.mem_singleton] at h1
            subst h1
            intro hcon
            cases hcon)
      (by decide) (by decide)
      (by show 0 + ([List.replicate 1000 0, [7]] :
            List (List Nat)).flatten.length = 1001
          simp only [List.flatten_cons, List.flatten_nil, List.append_nil,
            List.length_append, List.length_replicate, List.length_cons,
            List.length_nil])
      (by simp only [List.length_cons, List.length_nil]; omega)
    refine ⟨s', hrun, c1, ?_⟩
    rw [c6]
    have hfl : ([List.replicate 1000 0, [7]] : List (List Nat)).flatten.length
        = 1001 := by
      simp only [List.flatten_cons, List.flatten_nil, List.append_nil,
        List.length_append, List.length_replicate, List.length_cons,
        List.length_nil]
    rw [hfl]
    show 0 + (0 + 1001) / FLUSHBUFFER
        + (if (0 + 1001) % FLUSHBUFFER = 0 then 0 else 1) = 2
    rfl
  · obtain ⟨s', hrun, c1, _, _, _, _, c6⟩ := goodRun pages999 noErr 999
      (by intro k; unfold pages999; split <;> rfl)
      [List.replicate 999 0] (by intro hcon; cases hcon) 9
      (pages999 0) stInit rfl rfl
      (by intro i hi
          have heq : stInit.fetchCount - 1 + i = i := by
            show 1 - 1 + i = i; omega
          rw [heq]
          unfold pages999
          rw [if_neg (by omega)]
          rcases i with _ | n
          · omega
          · rfl)
      (by intro l hl
          rw [List.mem_singleton] at hl
          subst hl
          intro hcon
          have hlen := congrArg List.length hcon
          rw [List.length_replicate, List.length_nil] at hlen
          omega)
      (by decide) (by decide)
      (by show 0 + ([List.replicate 999 0] :
            List (List Nat)).flatten.length = 999
          simp only [List.flatten_cons, List.flatten_nil, List.append_nil,
            List.length_replicate])
      (by simp only [List.length_cons, List.length_nil]; omega)
    refine ⟨s', hrun, c1, ?_⟩
    rw [c6]
    have hfl : ([List.replicate 999 0] : List (List Nat)).flatten.length
        = 999 := by
      simp only [List.flatten_cons, List.flatten_nil, List.append_nil,
        List.length_replicate]
    rw [hfl]
    show 0 + (0 + 999) / FLUSHBUFFER
        + (if (0 + 999) % FLUSHBUFFER = 0 then 0 else 1) = 1
    rfl
  · obtain ⟨s', hrun, c1, _, _, _, _, c6⟩ := limitRun pages1000 noErr 1000
      (by omega) [List.replicate 1000 0] (by intro hcon; cases hcon) 9
      (pages1000 0) stInit rfl
      (by intro i hi hilen
          simp only [List.length_cons, List.length_nil] at hilen
          omega)
      (by intro l hl
          rw [List.dropLast_single] at hl
          exact absurd hl (List.not_mem_nil l))
      (by decide) (by decide)
      (by show 0 + (([List.replicate 1000 0] :
            List (List Nat)).dropLast).flatten.length < 1000
          simp only [List.dropLast_single, List.flatten_nil, List.length_nil]
          omega)
      (by show 1000 ≤ 0 + ([List.replicate 1000 0] :
            List (List Nat)).flatten.length
          simp only [List.flatten_cons, List.flatten_nil, List.append_nil,
            List.length_replicate]
          omega)
      (by simp only [List.length_cons, List.length_nil]; omega)
    refine ⟨s', hrun, c1, ?_⟩
    rw [c6]
    show 0 + (0 + (1000 - 0)) / FLUSHBUFFER + 1 = 2
    rfl

end Mes
